import Mathlib

/-!
Verification of the label-checker QC pipeline core against its specification.

The development shallowly embeds the pipeline's core modules:

* `data_loader`   : the annotation data model (`has_bbox`,
  `has_polygon`) and the segmentation normalization performed on load;
* `image_utils`   : region extraction (`polygon_bbox`, `expand_box`,
  `crop_ann`) over a purely functional raster-image model; the
  external rasterizer (polygon fill) and alpha compositor of the imaging
  library are abstracted as function parameters;
* `gemini_validator` : prompt construction, structured-response parsing
  (`parse_candidate`, with the external JSON decoder abstracted as a
  function parameter) and the bounded-retry loop (`validate_crop`);
* `run_validation` : summary statistics (`build_summary`).

Machine integers of the source are modelled as `Int`/`Nat`; the source's
floating-point coordinates are modelled as `Rat` (the geometry involved is
exact in every claim considered); fallible operations return `Except`.
-/

namespace QCPipeline

/-! ## Python strings

Python text is modelled as `List Char` (named `PyStr`), so that every
string operation of the source is a structurally recursive function the
kernel can evaluate on concrete inputs.  Literals are written as the
`.data` of Lean string literals. -/

abbrev PyStr := List Char

/-- The whitespace characters of Python's `str.strip()` (space, tab,
newline, carriage return, vertical tab, form feed). -/
def isPySpace (c : Char) : Bool :=
  c == ' ' || c == '\t' || c == '\n' || c == '\r' ||
  c == Char.ofNat 11 || c == Char.ofNat 12

/-- Python `str.strip()`: drop leading and trailing whitespace. -/
def pyStrip (s : PyStr) : PyStr :=
  ((s.dropWhile isPySpace).reverse.dropWhile isPySpace).reverse

/-- Python `str.startswith(p)`. -/
def pyStartsWith (s p : PyStr) : Bool := p.isPrefixOf s

/-- Python `str.endswith(p)`. -/
def pyEndsWith (s p : PyStr) : Bool := p.isSuffixOf s

/-- Python slicing `s[:-n]`. -/
def pyDropRight (s : PyStr) (n : ℕ) : PyStr := s.take (s.length - n)

/-- Decidable equality for `Except`, used to evaluate the embedded
operations on concrete inputs. -/
instance {E A : Type} [DecidableEq E] [DecidableEq A] : DecidableEq (Except E A)
  | .ok a, .ok b =>
    if h : a = b then .isTrue (by rw [h]) else .isFalse (by simp [h])
  | .error e, .error f =>
    if h : e = f then .isTrue (by rw [h]) else .isFalse (by simp [h])
  | .ok _, .error _ => .isFalse (by simp)
  | .error _, .ok _ => .isFalse (by simp)

/-! ## JSON values

Model of the Python values produced by the standard JSON decoder.  Booleans
are a separate constructor from numbers, mirroring Python where `bool` is a
subtype of `int` (so a boolean passes an `isinstance(x, (int, float))`
check, which the model tracks through `Json.isNumeric`). -/

inductive Json where
  | null
  | bool (b : Bool)
  | num (q : ℚ)
  | str (s : String)
  | arr (elems : List Json)
  | obj (fields : List (String × Json))

/-- `isinstance(x, (int, float))` on a decoded JSON value: true for JSON
numbers and - because Python's `bool` is a subtype of `int` - for JSON
booleans. -/
def Json.isNumeric : Json → Bool
  | .num _ => true
  | .bool _ => true
  | _ => false

/-- `isinstance(x, str)` on a decoded JSON value. -/
def Json.isStr : Json → Bool
  | .str _ => true
  | _ => false

/-- `float(x)` on a value that passed the numeric `isinstance` check:
numbers are returned as-is, `True` becomes `1.0`, `False` becomes `0.0`. -/
def Json.toFloat : Json → ℚ
  | .num q => q
  | .bool b => if b then 1 else 0
  | _ => 0

/-- `parsed.get(key)` on a decoded JSON object: the value stored under
`key`, or `None` when the key is absent. -/
def jGet (fields : List (String × Json)) (key : String) : Option Json :=
  (fields.find? (fun p => p.1 == key)).map (fun p => p.2)

/-! ## gemini_validator: response parsing -/

/-- Typed result of `GeminiValidator._parse_candidate`
(`gemini_validator.py`, `GeminiResponse`). -/
structure GeminiResponse where
  prediction_label : String
  confidence : ℚ
  rationale : Option String
  raw_text : PyStr

/-- The distinct error kinds `_parse_candidate` can produce.  The first
five are `ValueError`s raised explicitly by the source; `attributeError`
models the `AttributeError` Python raises when `.get` is called on a
decoded JSON value that is not an object (e.g. a list or a boolean). -/
inductive ParseError where
  | missingCandidates
  | missingParts
  | missingText
  | notJson (text : PyStr)
  | missingLabel
  | missingConfidence
  | attributeError
deriving DecidableEq

/-- Which parse failures the source raises as `ValueError` carrying a
malformed-response diagnosis (the spec's `MalformedResponseError`). -/
def ParseError.isMalformed : ParseError → Bool
  | .notJson _ => true
  | .missingLabel => true
  | .missingConfidence => true
  | _ => false

/-- The markdown code-fence stripping of `_parse_candidate`
(`gemini_validator.py` lines 115-122): drop a leading three-backtick fence
(with optional `json` tag), drop a trailing three-backtick fence, then trim
surrounding whitespace. -/
def stripFences (text : PyStr) : PyStr :=
  let t1 :=
    if pyStartsWith text "```json".data then text.drop 7
    else if pyStartsWith text "```".data then text.drop 3
    else text
  let t2 := if pyEndsWith t1 "```".data then pyDropRight t1 3 else t1
  pyStrip t2

/-- `GeminiValidator._parse_candidate` (`gemini_validator.py` lines
102-143).  The payload is given as its list of candidates, each candidate
as the list of text contents of its parts (a candidate with no `content`
key and one whose content has no parts both present an empty part list, a
part with no `text` key presents the empty string, exactly as the source's
`.get` defaults collapse them).  `jsonLoads` abstracts the standard JSON
decoder: `none` models a decode exception.

The field validation of `_parse_candidate` (`gemini_validator.py` lines
129-143), applied once the text decoded to a JSON object, is split out as
`validateFields`: `prediction_label` must be a string and `confidence`
numeric (via the boolean-admitting `isinstance` check), otherwise a
`ValueError`; a non-string `rationale` is silently dropped. -/
def rationaleOf (v : Option Json) : Option String :=
  match v with
  | some (.str r) => some r
  | _ => none

def validateFields (fields : List (String × Json)) (stripped : PyStr) :
    Except ParseError GeminiResponse :=
  match jGet fields "prediction_label" with
  | some (.str label) =>
    match jGet fields "confidence" with
    | some c =>
      if c.isNumeric then
        .ok { prediction_label := label
              confidence := c.toFloat
              rationale := rationaleOf (jGet fields "rationale")
              raw_text := stripped }
      else .error .missingConfidence
    | none => .error .missingConfidence
  | _ => .error .missingLabel

def parse_candidate (jsonLoads : PyStr → Option Json)
    (candidates : List (List PyStr)) : Except ParseError GeminiResponse :=
  match candidates with
  | [] => .error .missingCandidates
  | parts :: _ =>
    match parts with
    | [] => .error .missingParts
    | t0 :: _ =>
      let text := pyStrip t0
      if text = [] then .error .missingText
      else
        let stripped := stripFences text
        match jsonLoads stripped with
        | none => .error (.notJson stripped)
        | some parsed =>
          match parsed with
          | .obj fields => validateFields fields stripped
          | _ => .error .attributeError

/-! ## gemini_validator: prompt construction -/

/-- The guidelines handling of `GeminiValidator._build_request_body`
(`gemini_validator.py` lines 67-69): starting from the already-filled
prompt template, a truthy (non-empty) guidelines string is appended under a
`Guidelines` heading after stripping its surrounding whitespace. -/
def build_prompt (filledTemplate : PyStr) (guidelines : Option PyStr) : PyStr :=
  match guidelines with
  | some g =>
    if g ≠ [] then filledTemplate ++ "\n\nGuidelines:\n".data ++ pyStrip g
    else filledTemplate
  | none => filledTemplate

/-! ## gemini_validator: retry loop -/

/-- One unrolling of the retry loop of `GeminiValidator.validate_crop`
(`gemini_validator.py` lines 153-170).  `oracle a` is the combined outcome
of `_execute_request` + `_parse_candidate` on the `a`-th attempt (attempts
are numbered from 1, as in the source).  The result records the value
returned or error raised, the number of attempts performed, and the list of
back-off sleeps executed (in time units).  `fuel` is only a structural
termination bound: the top-level entry point passes `maxRetries`, which the
`a ≥ maxRetries` exit makes sufficient. -/
def validateCropGo {E A : Type} (oracle : ℕ → Except E A) (maxRetries : ℕ) :
    ℕ → ℕ → Except E A × ℕ × List ℕ
  | attempt, fuel =>
    let a := attempt + 1
    match oracle a with
    | .ok r => (.ok r, a, [])
    | .error e =>
      if a ≥ maxRetries then (.error e, a, [])
      else
        match fuel with
        | 0 => (.error e, a, [])
        | fuel' + 1 =>
          let rest := validateCropGo oracle maxRetries a fuel'
          (rest.1, rest.2.1, min (2 ^ (a - 1)) 30 :: rest.2.2)

/-- `GeminiValidator.validate_crop`: run the retry loop from attempt
counter 0. -/
def validate_crop {E A : Type} (oracle : ℕ → Except E A) (maxRetries : ℕ) :
    Except E A × ℕ × List ℕ :=
  validateCropGo oracle maxRetries 0 maxRetries

/-! ## run_validation: summary statistics -/

/-- `ValidationEntry` (`run_validation.py`), restricted to the fields the
summary reads. -/
structure ValidationEntry where
  image_id : ℤ
  annotation_id : ℤ
  expected_label : String
  prediction_label : String
  confidence : ℚ
  is_match : Bool

/-- `ValidationSummary` (`run_validation.py`). -/
structure ValidationSummary where
  total : ℕ
  «matches» : ℕ
  mismatches : ℕ
  accuracy : ℚ
  average_confidence : ℚ
deriving DecidableEq

/-- `_build_summary` (`run_validation.py` lines 49-61). -/
def build_summary (entries : List ValidationEntry) : ValidationSummary :=
  let total := entries.length
  let «matches» := (entries.filter (fun e => e.is_match)).length
  let mismatches := total - «matches»
  let avg_conf := if total ≠ 0 then ((entries.map (fun e => e.confidence)).sum) / total else 0
  let accuracy := if total ≠ 0 then («matches» : ℚ) / total else 0
  { total := total, «matches» := «matches», mismatches := mismatches,
    accuracy := accuracy, average_confidence := avg_conf }

/-! ## data_loader: annotations -/

/-- The annotation record of `data_loader.py` (named `Ann` here).  Geometry
coordinates are modelled as rationals. -/
structure Ann where
  id : ℤ
  image_id : ℤ
  category_id : ℤ
  bbox : Option (List ℚ) := none
  segmentation : Option (List (List ℚ)) := none
  area : Option ℚ := none
  iscrowd : Option ℤ := none

/-- `has_polygon`: Python truthiness of the `segmentation`
field (`None` and the empty list are falsy). -/
def Ann.has_polygon (a : Ann) : Bool :=
  match a.segmentation with
  | none => false
  | some segs => !segs.isEmpty

/-- `has_bbox`: `bool(self.bbox) and len(self.bbox) == 4`. -/
def Ann.has_bbox (a : Ann) : Bool :=
  match a.bbox with
  | none => false
  | some l => !l.isEmpty && l.length == 4

/-- The segmentation normalization of `load_coco_dataset`
(`data_loader.py` lines 118-121), on the raw decoded JSON value of an
entry's `segmentation` key (`none` models an absent key): a non-empty list
whose first element passes `isinstance(x, (int, float))` is wrapped in a
one-element outer list; everything else is stored unchanged. -/
def normalize_segmentation : Option Json → Option Json
  | some (.arr (x :: rest)) =>
    if x.isNumeric then some (.arr [.arr (x :: rest)])
    else some (.arr (x :: rest))
  | s => s

/-! ## image_utils: raster images

A purely functional model of the imaging library's raster images: a
declared size together with total functions giving the color (RGB) and
alpha value of each pixel coordinate. -/

structure PImage where
  width : ℕ
  height : ℕ
  pixel : ℕ → ℕ → ℕ × ℕ × ℕ
  alpha : ℕ → ℕ → ℕ

/-- The sub-image extracted by a successful `Image.crop((l, t, r, b))`:
size `(r - l, b - t)`, pixel `(i, j)` being the source pixel
`(l + i, t + j)` (for the well-ordered boxes with `0 ≤ l` and `0 ≤ t`
produced by `_expand_box` on regions overlapping the image; a zero-size
box gives a valid empty image).  The imaging library's coordinate
validation, which rejects inverted boxes before this extraction, is
modelled separately by `pilCrop`. -/
def crop (img : PImage) (l t r b : ℤ) : PImage :=
  { width := (r - l).toNat
    height := (b - t).toNat
    pixel := fun i j => img.pixel (l.toNat + i) (t.toNat + j)
    alpha := fun i j => img.alpha (l.toNat + i) (t.toNat + j) }

/-! ## image_utils: region extraction -/

/-- Python `int(x)` on a float: truncation toward zero. -/
def pyInt (q : ℚ) : ℤ := Int.tdiv q.num q.den

/-- The error kinds of `crop_ann`.  `emptyPolygon` and `noGeometry`
are the two explicit `ValueError`s of the source (both of the spec's
`GeometryError` kind); `invertedBox` models the `ValueError` the imaging
library's `Image.crop` raises when the box is inverted (right less than
left, or lower less than upper), which `_expand_box`'s one-sided clamping
produces for regions wholly outside the image; `indexOutOfRange` models
the `IndexError` raised by `segment[i + 1]` when a segment has an odd
number of coordinates. -/
inductive CropError where
  | emptyPolygon
  | noGeometry
  | invertedBox
  | indexOutOfRange
deriving DecidableEq

/-- `_polygon_bbox` (`image_utils.py` lines 19-32): even-indexed
coordinates of every segment are the xs, odd-indexed the ys; error when
either collection is empty, otherwise the componentwise min/max corners. -/
def polygon_bbox (segments : List (List ℚ)) : Except CropError (ℚ × ℚ × ℚ × ℚ) :=
  let xs := (segments.map (fun seg =>
    ((seg.enum.filter (fun p => p.1 % 2 == 0)).map (fun p => p.2)))).flatten
  let ys := (segments.map (fun seg =>
    ((seg.enum.filter (fun p => p.1 % 2 == 1)).map (fun p => p.2)))).flatten
  match xs, ys with
  | [], _ => .error .emptyPolygon
  | _, [] => .error .emptyPolygon
  | x :: xs', y :: ys' =>
    .ok (xs'.foldl min x, ys'.foldl min y, xs'.foldl max x, ys'.foldl max y)

/-- `_expand_box` (`image_utils.py` lines 35-50): clamp the padding to be
non-negative, truncate each raw edge with `int(...)`, pad outward, then
clamp left/top below by `0` and right/bottom above by the image size. -/
def expand_box (left top right bottom : ℚ) (padding : ℤ) (width height : ℕ) :
    ℤ × ℤ × ℤ × ℤ :=
  let pad := max 0 padding
  (max (pyInt left - pad) 0,
   max (pyInt top - pad) 0,
   min (pyInt right + pad) (width : ℤ),
   min (pyInt bottom + pad) (height : ℤ))

/-- The region-of-interest dispatch of the crop routine (`image_utils.py`
lines 57-64): a well-formed bbox `[x, y, w, h]` yields `(x, y, x+w, y+h)`
and takes precedence; otherwise a truthy segmentation is measured by
`polygon_bbox`; otherwise the no-geometry error. -/
def cropRegion (ann : Ann) : Except CropError (ℚ × ℚ × ℚ × ℚ) :=
  if ann.has_bbox then
    match ann.bbox with
    | some (x :: y :: w :: h :: _) => .ok (x, y, x + w, y + h)
    | _ => .error .noGeometry
  else if ann.has_polygon then polygon_bbox (ann.segmentation.getD [])
  else .error .noGeometry

/-- The integer crop rectangle the crop routine extracts: the raw region
expanded and clamped by `_expand_box` (`image_utils.py` lines 66-68). -/
def cropRect (img : PImage) (ann : Ann) (padding : ℤ) :
    Except CropError (ℤ × ℤ × ℤ × ℤ) :=
  match cropRegion ann with
  | .error e => .error e
  | .ok (l, t, r, b) => .ok (expand_box l t r b padding img.width img.height)

/-- The crop-local vertex list of one polygon segment (`image_utils.py`
lines 76-80): coordinates are taken in consecutive pairs and translated by
`(-left, -top)`; a segment of odd length makes `segment[i + 1]` raise. -/
def localPoints (left top : ℤ) : List ℚ → Option (List (ℚ × ℚ))
  | [] => some []
  | [_] => none
  | x :: y :: rest =>
    (localPoints left top rest).map (fun ps => (x - (left : ℚ), y - (top : ℚ)) :: ps)

/-- All segments of a segmentation in crop-local coordinates. -/
def localPolys (left top : ℤ) (segs : List (List ℚ)) :
    Option (List (List (ℚ × ℚ))) :=
  segs.mapM (localPoints left top)

/-- `image.crop((l, t, r, b))` as called by the source (`image_utils.py`
line 70), including the imaging library's coordinate validation: a box
whose right edge is less than its left, or whose bottom edge is less than
its top, raises a `ValueError` before any pixels are produced; otherwise
the sub-image is extracted (a zero-size box is a valid empty image, not an
error). -/
def pilCrop (img : PImage) (l t r b : ℤ) : Except CropError PImage :=
  if r < l then .error .invertedBox
  else if b < t then .error .invertedBox
  else .ok (crop img l t r b)

/-- `CropConfig` (`image_utils.py`). -/
structure CropConfig where
  padding : ℤ := 0
  mask_polygon : Bool := true
  background_color : ℕ × ℕ × ℕ × ℕ := (0, 0, 0, 0)

/-- The crop routine of `image_utils.py` lines 53-89 (named `crop_ann`
here).  The imaging
library's polygon rasterizer and alpha compositor are abstracted as the
parameters `fill` (non-empty crop-local polygons and mask size to a mask,
the union of the scanline fills the source draws one by one) and
`composite` (background color and masked crop to the matted image).  When
the annotation has a truthy segmentation and masking is enabled, the mask
rasterized from the crop-local polygons replaces the crop's alpha channel;
a background color with positive alpha is then composited beneath.  The
crop itself goes through `pilCrop`, so an inverted clamped box fails
before any masking, as in the source. -/
def crop_ann
    (fill : List (List (ℚ × ℚ)) → ℕ → ℕ → ℕ → ℕ → ℕ)
    (composite : ℕ × ℕ × ℕ × ℕ → PImage → PImage)
    (img : PImage) (ann : Ann) (config : CropConfig) :
    Except CropError PImage :=
  match cropRect img ann config.padding with
  | .error e => .error e
  | .ok (li, ti, ri, bi) =>
    match pilCrop img li ti ri bi with
    | .error e => .error e
    | .ok c =>
      if ann.has_polygon && config.mask_polygon then
        match localPolys li ti (ann.segmentation.getD []) with
        | none => .error .indexOutOfRange
        | some polys =>
          let mask := fill (polys.filter (fun ps => !ps.isEmpty)) c.width c.height
          let masked := { c with alpha := mask }
          if 0 < config.background_color.2.2.2 then .ok (composite config.background_color masked)
          else .ok masked
      else .ok c

/-! ## Lemmas about the retry loop -/

/-- Behaviour of the retry loop when attempts `j+1 .. k` fail and attempt
`k+1` succeeds within the retry budget. -/
theorem validateCropGo_ok {E A : Type} (oracle : ℕ → Except E A) (n k : ℕ) (r : A)
    (hfail : ∀ i, 1 ≤ i → i ≤ k → ∃ e, oracle i = .error e)
    (hok : oracle (k + 1) = .ok r) (hkn : k < n) :
    ∀ fuel j, j ≤ k → k ≤ j + fuel →
      validateCropGo oracle n j fuel =
        (.ok r, k + 1, (List.range' (j + 1) (k - j)).map (fun a => min (2 ^ (a - 1)) 30)) := by
  intro fuel
  induction fuel with
  | zero =>
    intro j hj hk
    have hjk : j = k := by omega
    subst hjk
    rw [validateCropGo]
    simp [hok]
  | succ fuel ih =>
    intro j hj hk
    rcases eq_or_lt_of_le hj with rfl | hlt
    · rw [validateCropGo]
      simp [hok]
    · obtain ⟨e, he⟩ := hfail (j + 1) (by omega) (by omega)
      rw [validateCropGo]
      simp only [he]
      rw [if_neg (by omega)]
      simp only [ih (j + 1) (by omega) (by omega)]
      have hrange : k - j = (k - (j + 1)) + 1 := by omega
      rw [hrange, List.range'_succ]
      simp

/-- Behaviour of the retry loop when every attempt fails: it stops at
attempt `n`, re-raising that attempt's error. -/
theorem validateCropGo_err {E A : Type} (oracle : ℕ → Except E A) (err : ℕ → E) (n : ℕ)
    (h : ∀ i, oracle i = .error (err i)) :
    ∀ fuel j, j < n → n ≤ j + fuel + 1 →
      validateCropGo oracle n j fuel =
        (.error (err n), n, (List.range' (j + 1) (n - 1 - j)).map (fun a => min (2 ^ (a - 1)) 30)) := by
  intro fuel
  induction fuel with
  | zero =>
    intro j hj hn
    have hjn : j + 1 = n := by omega
    rw [validateCropGo]
    simp only [h (j + 1)]
    rw [if_pos (by omega)]
    rw [hjn]
    have hz : n - 1 - j = 0 := by omega
    simp [hz]
  | succ fuel ih =>
    intro j hj hn
    by_cases hstop : n ≤ j + 1
    · have hjn : j + 1 = n := by omega
      rw [validateCropGo]
      simp only [h (j + 1)]
      rw [if_pos (by omega)]
      rw [hjn]
      have hz : n - 1 - j = 0 := by omega
      simp [hz]
    · rw [validateCropGo]
      simp only [h (j + 1)]
      rw [if_neg (by omega)]
      simp only [ih (j + 1) (by omega) (by omega)]
      have hrange : n - 1 - j = (n - 1 - (j + 1)) + 1 := by omega
      rw [hrange, List.range'_succ]
      simp

/-! ## Claim C1 -/

/-- C1 counterexample: with `max_retries = 0` and a client that always
fails, `validate_crop` still performs one attempt before raising, so "the
call raises after exactly n attempts" is false at `n = 0`. -/
theorem validate_crop_zero_retries_counterexample :
    validate_crop (fun _ => (Except.error 0 : Except ℕ ℕ)) 0 =
      (Except.error 0, 1, []) ∧ (1 : ℕ) ≠ 0 :=
  ⟨rfl, by decide⟩

/-- C1 (amended): with `max_retries = n`, if the request/parse fails on the
first `k` attempts with `k < n` and succeeds on attempt `k+1`, the call
returns that result after exactly `k+1` attempts, sleeping
`min(2^(attempt-1), 30)` after each failed attempt; if every attempt fails,
the call raises after exactly `max(n, 1)` attempts (at least one attempt is
always made) and the error raised is the last attempt's error unchanged. -/
theorem validate_crop_retry_amended {E A : Type} (oracle : ℕ → Except E A)
    (n k : ℕ) (r : A) (err : ℕ → E) :
    (k < n → (∀ i, 1 ≤ i → i ≤ k → ∃ e, oracle i = .error e) → oracle (k + 1) = .ok r →
      validate_crop oracle n =
        (.ok r, k + 1, (List.range' 1 k).map (fun a => min (2 ^ (a - 1)) 30))) ∧
    ((∀ i, oracle i = .error (err i)) →
      validate_crop oracle n =
        (.error (err (max n 1)), max n 1,
          (List.range' 1 (max n 1 - 1)).map (fun a => min (2 ^ (a - 1)) 30))) := by
  constructor
  · intro hkn hfail hok
    have h := validateCropGo_ok oracle n k r hfail hok hkn n 0 (by omega) (by omega)
    simpa [validate_crop] using h
  · intro hfail
    rcases n with _ | m
    · show validateCropGo oracle 0 0 0 = _
      rw [validateCropGo]
      simp only [hfail 1]
      simp
    · have h := validateCropGo_err oracle err (m + 1) hfail (m + 1) 0 (by omega) (by omega)
      have hmax : max (m + 1) 1 = m + 1 := by omega
      rw [validate_crop, h, hmax]
      simp

/-- A client failing on attempts 1 and 2, succeeding from attempt 3. -/
def oracleFlaky : ℕ → Except ℕ ℕ := fun i => if i ≤ 2 then .error i else .ok 42

/-- A client failing on every attempt (the error names the attempt). -/
def oracleDown : ℕ → Except ℕ ℕ := fun i => .error i

theorem validate_crop_retry_witness :
    validate_crop oracleFlaky 5 = (.ok 42, 3, [1, 2]) ∧
    validate_crop oracleDown 3 = (.error 3, 3, [1, 2]) := by
  constructor
  · have h := (validate_crop_retry_amended oracleFlaky 5 2 42 (fun i => i)).1 (by omega)
      (fun i h1 h2 => ⟨i, by simp [oracleFlaky, h2]⟩) (by rfl)
    exact h.trans (by rfl)
  · have h := (validate_crop_retry_amended oracleDown 3 2 42 (fun i => i)).2 (fun i => rfl)
    exact h.trans (by rfl)

/-! ## Claim C6 -/

/-- C6: a segmentation entry that is a non-empty flat numeric list is
stored wrapped as a one-element list of polygons; one already given as a
list of lists is stored unchanged; in either case the stored value is
uniformly a list of polygons (a list of lists). -/
theorem normalize_segmentation_spec (l : List Json) :
    (l ≠ [] → (∀ e ∈ l, e.isNumeric = true) →
      normalize_segmentation (some (.arr l)) = some (.arr [.arr l])) ∧
    ((∀ e ∈ l, ∃ il, e = .arr il) →
      normalize_segmentation (some (.arr l)) = some (.arr l)) ∧
    (((l ≠ [] ∧ ∀ e ∈ l, e.isNumeric = true) ∨ (∀ e ∈ l, ∃ il, e = .arr il)) →
      ∃ polys : List Json, normalize_segmentation (some (.arr l)) = some (.arr polys) ∧
        ∀ p ∈ polys, ∃ il, p = .arr il) := by
  rcases l with _ | ⟨x, rest⟩
  · exact ⟨fun h => absurd rfl h, fun _ => rfl, fun _ => ⟨[], rfl, by simp⟩⟩
  · refine ⟨?_, ?_, ?_⟩
    · intro _ hnum
      have hx : x.isNumeric = true := hnum x (List.mem_cons_self x rest)
      simp [normalize_segmentation, hx]
    · intro hl
      obtain ⟨il, hil⟩ := hl x (List.mem_cons_self x rest)
      subst hil
      simp [normalize_segmentation, Json.isNumeric]
    · rintro (⟨_, hnum⟩ | hl)
      · have hx : x.isNumeric = true := hnum x (List.mem_cons_self x rest)
        exact ⟨[.arr (x :: rest)], by simp [normalize_segmentation, hx], by simp⟩
      · obtain ⟨il, hil⟩ := hl x (List.mem_cons_self x rest)
        refine ⟨x :: rest, ?_, fun p hp => hl p hp⟩
        subst hil
        simp [normalize_segmentation, Json.isNumeric]

/-- The flat segmentation example of the specification. -/
def flatSeg : List Json := [.num 8, .num 8, .num 24, .num 8, .num 24, .num 24]

theorem normalize_segmentation_witness :
    normalize_segmentation (some (.arr flatSeg)) = some (.arr [.arr flatSeg]) :=
  (normalize_segmentation_spec flatSeg).1 (by simp [flatSeg]) (by decide)

/-! ## Claim C7 -/

/-- C7 counterexample: guidelines text carrying a trailing newline is not
appended verbatim - the source appends `guidelines.strip()`, so the
newline is removed. -/
theorem build_prompt_verbatim_counterexample :
    build_prompt "T".data (some "hi\n".data) =
      "T".data ++ "\n\nGuidelines:\n".data ++ "hi".data ∧
    "T".data ++ "\n\nGuidelines:\n".data ++ "hi".data ≠
      "T".data ++ "\n\nGuidelines:\n".data ++ "hi\n".data :=
  ⟨by decide, by decide⟩

/-- C7 (amended): a non-empty guidelines text is appended under the
`Guidelines` heading with its surrounding whitespace stripped (hence
verbatim exactly when it has no surrounding whitespace); with no
guidelines the prompt is the filled template alone. -/
theorem build_prompt_guidelines_amended (filled g : PyStr) (hg : g ≠ []) :
    build_prompt filled (some g) = filled ++ "\n\nGuidelines:\n".data ++ pyStrip g ∧
    (pyStrip g = g → build_prompt filled (some g) = filled ++ "\n\nGuidelines:\n".data ++ g) ∧
    build_prompt filled none = filled := by
  refine ⟨?_, ?_, rfl⟩
  · simp [build_prompt, hg]
  · intro hfix
    simp [build_prompt, hg, hfix]

theorem build_prompt_guidelines_witness :
    build_prompt "T".data (some "Check shadows.".data) =
      "T".data ++ "\n\nGuidelines:\n".data ++ "Check shadows.".data :=
  (build_prompt_guidelines_amended "T".data "Check shadows.".data (by decide)).2.1 (by decide)

/-! ## Claim C8 -/

/-- C8: the summary counts matches exactly, sets `mismatches` to
`total - matches`, divides for `accuracy` and `average_confidence` when
the entry list is non-empty, and returns `0.0` for both when it is empty. -/
theorem build_summary_spec (entries : List ValidationEntry) :
    (build_summary entries).total = entries.length ∧
    (build_summary entries).«matches» = entries.countP (fun e => e.is_match) ∧
    (build_summary entries).mismatches =
      (build_summary entries).total - (build_summary entries).«matches» ∧
    (entries = [] →
      (build_summary entries).accuracy = 0 ∧
      (build_summary entries).average_confidence = 0) ∧
    (entries ≠ [] →
      (build_summary entries).accuracy =
        ((build_summary entries).«matches» : ℚ) / (entries.length : ℚ) ∧
      (build_summary entries).average_confidence =
        ((entries.map (fun e => e.confidence)).sum) / (entries.length : ℚ)) := by
  refine ⟨rfl, ?_, rfl, ?_, ?_⟩
  · simp [build_summary, List.countP_eq_length_filter]
  · rintro rfl
    simp [build_summary]
  · intro h
    have hlen : entries.length ≠ 0 := by simpa [List.length_eq_zero] using h
    simp [build_summary, hlen]

/-- Two matching entries and one mismatch, as in the specification's
worked example. -/
def demoEntries : List ValidationEntry :=
  [⟨1, 1, "cat", "cat", 1, true⟩,
   ⟨1, 2, "dog", "dog", mkRat 1 2, true⟩,
   ⟨1, 3, "cat", "dog", 0, false⟩]

theorem build_summary_witness :
    (build_summary demoEntries).accuracy =
      ((build_summary demoEntries).«matches» : ℚ) / (demoEntries.length : ℚ) ∧
    (build_summary demoEntries).«matches» = demoEntries.countP (fun e => e.is_match) :=
  ⟨((build_summary_spec demoEntries).2.2.2.2 (List.cons_ne_nil _ _)).1,
   (build_summary_spec demoEntries).2.1⟩

/-! ## Lemmas about response parsing -/

theorem parse_candidate_nojson (jp : PyStr → Option Json) (t0 : PyStr)
    (ts : List PyStr) (rest : List (List PyStr))
    (hne : pyStrip t0 ≠ [])
    (hjp : jp (stripFences (pyStrip t0)) = none) :
    parse_candidate jp ((t0 :: ts) :: rest) =
      .error (.notJson (stripFences (pyStrip t0))) := by
  simp only [parse_candidate]
  rw [if_neg hne, hjp]

theorem parse_candidate_objCase (jp : PyStr → Option Json) (t0 : PyStr)
    (ts : List PyStr) (rest : List (List PyStr)) (fields : List (String × Json))
    (hne : pyStrip t0 ≠ [])
    (hjp : jp (stripFences (pyStrip t0)) = some (.obj fields)) :
    parse_candidate jp ((t0 :: ts) :: rest) =
      validateFields fields (stripFences (pyStrip t0)) := by
  simp only [parse_candidate]
  rw [if_neg hne, hjp]

theorem parse_candidate_nonObj (jp : PyStr → Option Json) (t0 : PyStr)
    (ts : List PyStr) (rest : List (List PyStr)) (j : Json)
    (hne : pyStrip t0 ≠ [])
    (hjp : jp (stripFences (pyStrip t0)) = some j)
    (hobj : ∀ fields, j ≠ .obj fields) :
    parse_candidate jp ((t0 :: ts) :: rest) = .error .attributeError := by
  simp only [parse_candidate]
  rw [if_neg hne, hjp]
  cases j with
  | obj fields => exact absurd rfl (hobj fields)
  | _ => rfl

theorem validateFields_ok (fields : List (String × Json)) (stripped : PyStr)
    (label : String) (c : Json)
    (hlabel : jGet fields "prediction_label" = some (.str label))
    (hconf : jGet fields "confidence" = some c)
    (hnum : c.isNumeric = true) :
    validateFields fields stripped =
      .ok { prediction_label := label
            confidence := c.toFloat
            rationale := rationaleOf (jGet fields "rationale")
            raw_text := stripped } := by
  simp only [validateFields]
  rw [hlabel, hconf]
  simp [hnum]

theorem validateFields_ok_iff (fields : List (String × Json)) (stripped : PyStr) :
    (∃ resp, validateFields fields stripped = .ok resp) ↔
      ((∃ label, jGet fields "prediction_label" = some (.str label)) ∧
       (∃ c, jGet fields "confidence" = some c ∧ c.isNumeric = true)) := by
  rcases hl : jGet fields "prediction_label" with _ | jl
  · simp [validateFields, hl]
  · cases jl with
    | str label =>
      rcases hc : jGet fields "confidence" with _ | c
      · simp [validateFields, hl, hc]
      · by_cases hnum : c.isNumeric = true
        · simp [validateFields, hl, hc, hnum]
        · simp [validateFields, hl, hc, hnum]
    | null => simp [validateFields, hl]
    | bool b => simp [validateFields, hl]
    | num q => simp [validateFields, hl]
    | arr elems => simp [validateFields, hl]
    | obj fs => simp [validateFields, hl]

theorem validateFields_err (fields : List (String × Json)) (stripped : PyStr)
    (hfail : ∀ resp, validateFields fields stripped ≠ .ok resp) :
    validateFields fields stripped = .error .missingLabel ∨
    validateFields fields stripped = .error .missingConfidence := by
  rcases hl : jGet fields "prediction_label" with _ | jl
  · simp [validateFields, hl]
  · cases jl with
    | str label =>
      rcases hc : jGet fields "confidence" with _ | c
      · simp [validateFields, hl, hc]
      · by_cases hnum : c.isNumeric = true
        · exact absurd (validateFields_ok fields stripped label c hl hc hnum) (hfail _)
        · simp [validateFields, hl, hc, hnum]
    | null => simp [validateFields, hl]
    | bool b => simp [validateFields, hl]
    | num q => simp [validateFields, hl]
    | arr elems => simp [validateFields, hl]
    | obj fs => simp [validateFields, hl]

/-! ## Claim C4 -/

/-- A decoded `"true"` as the standard JSON decoder returns it. -/
def jpTrue : PyStr → Option Json :=
  fun s => if s = "true".data then some (.bool true) else none

/-- C4 counterexample: a payload whose text is the valid JSON `true` (so
the decode succeeds with a non-object) makes the source call `.get` on a
boolean, raising `AttributeError` - not the malformed-response
`ValueError` the claim requires for a response lacking the fields. -/
theorem parse_candidate_nonobject_counterexample :
    parse_candidate jpTrue [["true".data]] = .error .attributeError ∧
    ParseError.isMalformed .attributeError = false :=
  ⟨rfl, rfl⟩

/-- C4 (amended): after stripping an optional code fence and trimming, the
parse (a) succeeds with the object's `prediction_label` and `confidence`
exactly when the text decodes to a JSON object with a string label and
numeric confidence (a non-string `rationale` being dropped rather than an
error), (b) fails with a malformed-response `ValueError` carrying the text
when the text is not valid JSON, and with a malformed-response
`ValueError` when it decodes to an object lacking the fields or typing
them wrongly; but (c) a text decoding to valid non-object JSON raises
`AttributeError` instead of a malformed-response error. -/
theorem parse_candidate_amended (jp : PyStr → Option Json) (t0 : PyStr)
    (ts : List PyStr) (rest : List (List PyStr))
    (hne : pyStrip t0 ≠ []) :
    (jp (stripFences (pyStrip t0)) = none →
      parse_candidate jp ((t0 :: ts) :: rest) =
        .error (.notJson (stripFences (pyStrip t0)))) ∧
    (∀ fields label c, jp (stripFences (pyStrip t0)) = some (.obj fields) →
      jGet fields "prediction_label" = some (.str label) →
      jGet fields "confidence" = some c → c.isNumeric = true →
      parse_candidate jp ((t0 :: ts) :: rest) =
        .ok { prediction_label := label
              confidence := c.toFloat
              rationale := rationaleOf (jGet fields "rationale")
              raw_text := stripFences (pyStrip t0) }) ∧
    (∀ fields, jp (stripFences (pyStrip t0)) = some (.obj fields) →
      ((∃ resp, parse_candidate jp ((t0 :: ts) :: rest) = .ok resp) ↔
        ((∃ label, jGet fields "prediction_label" = some (.str label)) ∧
         (∃ c, jGet fields "confidence" = some c ∧ c.isNumeric = true)))) ∧
    (∀ fields, jp (stripFences (pyStrip t0)) = some (.obj fields) →
      (∀ resp, parse_candidate jp ((t0 :: ts) :: rest) ≠ .ok resp) →
      (parse_candidate jp ((t0 :: ts) :: rest) = .error .missingLabel ∨
       parse_candidate jp ((t0 :: ts) :: rest) = .error .missingConfidence)) ∧
    (∀ j, jp (stripFences (pyStrip t0)) = some j → (∀ fields, j ≠ .obj fields) →
      parse_candidate jp ((t0 :: ts) :: rest) = .error .attributeError) := by
  refine ⟨?_, ?_, ?_, ?_, ?_⟩
  · intro hjp
    exact parse_candidate_nojson jp t0 ts rest hne hjp
  · intro fields label c hjp hlabel hconf hnum
    rw [parse_candidate_objCase jp t0 ts rest fields hne hjp]
    exact validateFields_ok fields _ label c hlabel hconf hnum
  · intro fields hjp
    rw [parse_candidate_objCase jp t0 ts rest fields hne hjp]
    exact validateFields_ok_iff fields _
  · intro fields hjp hfail
    rw [parse_candidate_objCase jp t0 ts rest fields hne hjp] at hfail ⊢
    exact validateFields_err fields _ hfail
  · intro j hjp hobj
    exact parse_candidate_nonObj jp t0 ts rest j hne hjp hobj

/-- A decoder mapping the bare text `PAYLOAD` to an object with a string
label, a numeric confidence and a non-string rationale. -/
def jpObjDemo : PyStr → Option Json := fun s =>
  if s = "PAYLOAD".data then
    some (.obj [("prediction_label", .str "cat"),
                ("confidence", .num (mkRat 9 10)),
                ("rationale", .num 5)])
  else none

theorem parse_candidate_amended_witness :
    parse_candidate jpObjDemo [["```json PAYLOAD```".data]] =
      .ok { prediction_label := "cat", confidence := mkRat 9 10,
            rationale := none, raw_text := "PAYLOAD".data } := by
  have h := (parse_candidate_amended jpObjDemo "```json PAYLOAD```".data [] []
      (by decide)).2.1
      [("prediction_label", .str "cat"), ("confidence", .num (mkRat 9 10)),
       ("rationale", .num 5)]
      "cat" (.num (mkRat 9 10)) (by rfl) (by rfl) (by rfl) (by rfl)
  exact h.trans (by rfl)

/-! ## Claim C9 -/

/-- C9: a JSON boolean under `confidence` passes the numeric check (Python
booleans being integers) and is converted by `float(...)` to `1.0` for
`true` and `0.0` for `false`; no malformed-response error is raised. -/
theorem confidence_bool_accepted (jp : PyStr → Option Json) (t0 : PyStr)
    (ts : List PyStr) (rest : List (List PyStr)) (fields : List (String × Json))
    (label : String) (b : Bool) (rv : Option Json)
    (hne : pyStrip t0 ≠ [])
    (hjp : jp (stripFences (pyStrip t0)) = some (.obj fields))
    (hlabel : jGet fields "prediction_label" = some (.str label))
    (hconf : jGet fields "confidence" = some (.bool b))
    (hrat : jGet fields "rationale" = rv) :
    parse_candidate jp ((t0 :: ts) :: rest) =
      .ok { prediction_label := label
            confidence := if b then 1 else 0
            rationale := rationaleOf rv
            raw_text := stripFences (pyStrip t0) } := by
  rw [parse_candidate_objCase jp t0 ts rest fields hne hjp]
  rw [validateFields_ok fields _ label (.bool b) hlabel hconf rfl]
  rw [hrat]
  rfl

/-- A decoder mapping the text `BOOLCONF` to an object whose confidence is
the JSON boolean `true`. -/
def jpBoolDemo : PyStr → Option Json := fun s =>
  if s = "BOOLCONF".data then
    some (.obj [("prediction_label", .str "dog"), ("confidence", .bool true)])
  else none

theorem confidence_bool_accepted_witness :
    parse_candidate jpBoolDemo [["BOOLCONF".data]] =
      .ok { prediction_label := "dog", confidence := 1,
            rationale := none, raw_text := "BOOLCONF".data } := by
  have h := confidence_bool_accepted jpBoolDemo "BOOLCONF".data [] []
      [("prediction_label", .str "dog"), ("confidence", .bool true)]
      "dog" true none (by decide) rfl rfl rfl rfl
  exact h.trans (by rfl)

/-! ## Concrete fixtures for the geometry claims -/

/-- A 50x50 black source image. -/
def img50 : PImage :=
  { width := 50, height := 50, pixel := fun _ _ => (0, 0, 0), alpha := fun _ _ => 255 }

/-- A 10x10 source image whose pixel values encode their coordinates. -/
def img10 : PImage :=
  { width := 10, height := 10, pixel := fun i j => (i, j, 0), alpha := fun _ _ => 255 }

/-- A concrete rasterizer instance (constant mask). -/
def fillZero : List (List (ℚ × ℚ)) → ℕ → ℕ → ℕ → ℕ → ℕ := fun _ _ _ _ _ => 255

/-- A concrete compositor instance (identity). -/
def compositeId : ℕ × ℕ × ℕ × ℕ → PImage → PImage := fun _ i => i

/-- The default crop configuration (padding 0, masking on, transparent
background). -/
def cfgDefault : CropConfig := {}

/-! ## Lemmas about truncation -/

/-- Python `int()` is the identity on integral values. -/
theorem pyInt_intCast (n : ℤ) : pyInt ((n : ℚ)) = n := by
  simp [pyInt, Rat.num_intCast, Rat.den_intCast, Int.tdiv_one]

/-! ## Claim C2 -/

/-- An annotation whose bbox lies entirely outside its 50x50 image. -/
def annOutside : Ann :=
  { id := 1, image_id := 1, category_id := 1, bbox := some [100, 100, 10, 10] }

/-- C2 counterexample: for a bbox lying beyond the image's right/bottom
edge, the computed crop rectangle's left edge (100) exceeds the image
width (50): left/top are only clamped from below and right/bottom only
from above, so the rectangle is not within `[0, width] x [0, height]`. -/
theorem crop_rect_bounds_counterexample :
    cropRect img50 annOutside 0 = .ok (100, 100, 50, 50) ∧
    ¬((100 : ℤ) ≤ (img50.width : ℤ)) :=
  ⟨by with_unfolding_all rfl, by decide⟩

/-- C2 (amended): for any annotation region and any padding value
(including negative padding, clamped to zero, and padding exceeding the
image size), the crop rectangle's left/top edges are at least `0` and its
right/bottom edges at most the image size; when additionally the truncated
raw region overlaps the image (its left/top truncations are at most the
image size and its right/bottom truncations at least `0`), all four edges
lie within `[0, width] x [0, height]`. -/
theorem crop_rect_in_bounds_amended (img : PImage) (ann : Ann) (padding : ℤ)
    (l t r b : ℚ) (li ti ri bi : ℤ)
    (hreg : cropRegion ann = .ok (l, t, r, b))
    (hl : pyInt l ≤ (img.width : ℤ)) (ht : pyInt t ≤ (img.height : ℤ))
    (hr : 0 ≤ pyInt r) (hb : 0 ≤ pyInt b)
    (hrect : cropRect img ann padding = .ok (li, ti, ri, bi)) :
    0 ≤ li ∧ li ≤ (img.width : ℤ) ∧ 0 ≤ ti ∧ ti ≤ (img.height : ℤ) ∧
    0 ≤ ri ∧ ri ≤ (img.width : ℤ) ∧ 0 ≤ bi ∧ bi ≤ (img.height : ℤ) := by
  simp only [cropRect, hreg] at hrect
  have hexp : expand_box l t r b padding img.width img.height = (li, ti, ri, bi) := by
    simpa using hrect
  simp only [expand_box, Prod.mk.injEq] at hexp
  obtain ⟨e1, e2, e3, e4⟩ := hexp
  refine ⟨?_, ?_, ?_, ?_, ?_, ?_, ?_, ?_⟩ <;> omega

/-- An annotation inside the 50x50 image, cropped with huge padding. -/
def annInside : Ann :=
  { id := 2, image_id := 1, category_id := 1, bbox := some [10, 10, 20, 20] }

theorem crop_rect_in_bounds_witness :
    (0 : ℤ) ≤ 0 ∧ (0 : ℤ) ≤ (img50.width : ℤ) ∧
    (0 : ℤ) ≤ 0 ∧ (0 : ℤ) ≤ (img50.height : ℤ) ∧
    (0 : ℤ) ≤ 50 ∧ (50 : ℤ) ≤ (img50.width : ℤ) ∧
    (0 : ℤ) ≤ 50 ∧ (50 : ℤ) ≤ (img50.height : ℤ) :=
  crop_rect_in_bounds_amended img50 annInside 1000 10 10 30 30 0 0 50 50
    (by with_unfolding_all rfl) (by decide) (by decide) (by decide) (by decide)
    (by with_unfolding_all rfl)

/-! ## Claim C3 -/

/-- An annotation with a fractional bbox width/height of `8/5 = 1.6`. -/
def annFrac : Ann :=
  { id := 3, image_id := 1, category_id := 1,
    bbox := some [0, 0, mkRat 8 5, mkRat 8 5] }

/-- C3 counterexample: a bbox `[0, 0, 1.6, 1.6]` inside a 10x10 image with
zero padding is cropped to integer edges `int(0) .. int(1.6)`, giving a
1x1 crop, while `round(1.6) = 2`: the claimed dimensions
`(round(w), round(h))` are wrong for fractional boxes. -/
theorem crop_zero_padding_counterexample :
    Except.map (fun i => (i.width, i.height))
      (crop_ann fillZero compositeId img10 annFrac cfgDefault) = .ok (1, 1) ∧
    round (mkRat 8 5) = 2 ∧ ¬((1 : ℕ) = (round (mkRat 8 5)).toNat) := by
  have h2 : round (mkRat 8 5) = 2 := by
    rw [Rat.mkRat_eq_div 8 5, round_eq]
    norm_num
  refine ⟨by with_unfolding_all rfl, h2, ?_⟩
  rw [h2]
  decide

/-- C3 (amended): for an integral bbox `[x, y, w, h]` lying inside the
image and zero padding, the extracted crop has dimensions
`(round(w), round(h)) = (w, h)` and its top-left pixel is the source pixel
at `(x, y)` (with a transparent background color, so that no compositing
alters the pixels; a polygon mask, if applied, only changes the alpha
channel). -/
theorem crop_zero_padding_amended
    (fill : List (List (ℚ × ℚ)) → ℕ → ℕ → ℕ → ℕ → ℕ)
    (composite : ℕ × ℕ × ℕ × ℕ → PImage → PImage)
    (img : PImage) (ann : Ann) (config : CropConfig)
    (x y w h : ℤ) (out : PImage)
    (hbb : ann.bbox = some [(x : ℚ), (y : ℚ), (w : ℚ), (h : ℚ)])
    (hx : 0 ≤ x) (hy : 0 ≤ y)
    (hxw : x + w ≤ (img.width : ℤ)) (hyh : y + h ≤ (img.height : ℤ))
    (hpad : config.padding = 0)
    (hbg : config.background_color.2.2.2 = 0)
    (hok : crop_ann fill composite img ann config = .ok out) :
    out.width = (round ((w : ℚ))).toNat ∧
    out.height = (round ((h : ℚ))).toNat ∧
    out.pixel 0 0 = img.pixel x.toNat y.toNat := by
  have hb4 : ann.has_bbox = true := by simp [Ann.has_bbox, hbb]
  have hreg : cropRegion ann =
      .ok ((x : ℚ), (y : ℚ), (x : ℚ) + (w : ℚ), (y : ℚ) + (h : ℚ)) := by
    simp [cropRegion, hb4, hbb]
  have hxw2 : pyInt ((x : ℚ) + (w : ℚ)) = x + w := by
    rw [← Int.cast_add]
    exact pyInt_intCast (x + w)
  have hyh2 : pyInt ((y : ℚ) + (h : ℚ)) = y + h := by
    rw [← Int.cast_add]
    exact pyInt_intCast (y + h)
  have hexp : expand_box (x : ℚ) (y : ℚ) ((x : ℚ) + (w : ℚ)) ((y : ℚ) + (h : ℚ))
      0 img.width img.height = (x, y, x + w, y + h) := by
    simp only [expand_box, pyInt_intCast, hxw2, hyh2, Prod.mk.injEq]
    refine ⟨?_, ?_, ?_, ?_⟩ <;> omega
  have hrect : cropRect img ann config.padding = .ok (x, y, x + w, y + h) := by
    rw [hpad]
    simp only [cropRect, hreg]
    rw [hexp]
  have hw : (crop img x y (x + w) (y + h)).width = (round ((w : ℚ))).toNat := by
    simp [crop, round_intCast]
  have hh2 : (crop img x y (x + w) (y + h)).height = (round ((h : ℚ))).toNat := by
    simp [crop, round_intCast]
  have hp : (crop img x y (x + w) (y + h)).pixel 0 0 = img.pixel x.toNat y.toNat := by
    simp [crop]
  simp only [crop_ann, hrect] at hok
  by_cases hinv1 : x + w < x
  · have hpil : pilCrop img x y (x + w) (y + h) = .error .invertedBox := by
      rw [pilCrop, if_pos hinv1]
    simp only [hpil] at hok
    exact Except.noConfusion hok
  · by_cases hinv2 : y + h < y
    · have hpil : pilCrop img x y (x + w) (y + h) = .error .invertedBox := by
        rw [pilCrop, if_neg hinv1, if_pos hinv2]
      simp only [hpil] at hok
      exact Except.noConfusion hok
    · have hpil : pilCrop img x y (x + w) (y + h) =
          .ok (crop img x y (x + w) (y + h)) := by
        rw [pilCrop, if_neg hinv1, if_neg hinv2]
      simp only [hpil] at hok
      by_cases hpoly : (ann.has_polygon && config.mask_polygon) = true
      · rw [if_pos hpoly] at hok
        rcases hlp : localPolys x y (ann.segmentation.getD []) with _ | polys
        · rw [hlp] at hok
          exact Except.noConfusion hok
        · rw [hlp] at hok
          rw [hbg] at hok
          simp only [lt_irrefl, if_false] at hok
          injection hok with h2
          subst h2
          exact ⟨hw, hh2, hp⟩
      · rw [if_neg hpoly] at hok
        injection hok with h2
        subst h2
        exact ⟨hw, hh2, hp⟩

/-- An integral bbox `[1, 2, 3, 4]` inside the 10x10 image. -/
def annInt : Ann :=
  { id := 4, image_id := 1, category_id := 1,
    bbox := some [((1 : ℤ) : ℚ), ((2 : ℤ) : ℚ), ((3 : ℤ) : ℚ), ((4 : ℤ) : ℚ)] }

theorem crop_zero_padding_witness :
    (crop img10 1 2 4 6).width = (round ((3 : ℤ) : ℚ)).toNat ∧
    (crop img10 1 2 4 6).height = (round ((4 : ℤ) : ℚ)).toNat ∧
    (crop img10 1 2 4 6).pixel 0 0 = img10.pixel (1 : ℤ).toNat (2 : ℤ).toNat :=
  crop_zero_padding_amended fillZero compositeId img10 annInt cfgDefault 1 2 3 4
    (crop img10 1 2 4 6) rfl (by decide) (by decide) (by decide) (by decide)
    rfl rfl (by with_unfolding_all rfl)

/-! ## Claim C5 -/

/-- A both-geometry annotation whose bbox lies wholly outside the 50x50
image. -/
def annOutsideBoth : Ann :=
  { id := 8, image_id := 1, category_id := 1,
    bbox := some [100, 100, 10, 10],
    segmentation := some [[100, 100, 105, 100, 105, 105]] }

/-- C5 counterexample: for an annotation with a 4-element bbox wholly
outside the image and a non-empty polygon, the clamped crop rectangle is
inverted (`(100, 100, 50, 50)`), so the crop call raises the imaging
library's inverted-box `ValueError` before any masking - the polygon mask
is never rasterized or applied, contradicting the claim's "the polygon
mask is still rasterized ... and applied". -/
theorem bbox_outside_mask_counterexample :
    crop_ann fillZero compositeId img50 annOutsideBoth cfgDefault =
      .error .invertedBox ∧
    cropRect img50 annOutsideBoth 0 = .ok (100, 100, 50, 50) :=
  ⟨by with_unfolding_all rfl, by with_unfolding_all rfl⟩

/-- C5 (amended): when an annotation has both a 4-element bbox and a
truthy polygon segmentation, the crop rectangle is the expanded bbox
regardless of the polygon (replacing the segmentation by anything leaves
the rectangle unchanged); and provided that clamped rectangle is
well-ordered (left at most right, top at most bottom - in particular
whenever the bbox region overlaps the image), with masking enabled the
mask rasterized from the crop-local polygons (translated by the
bbox-determined offsets) is applied as the alpha channel of the
bbox-determined crop (then matted over the background color when its
alpha is positive); an inverted clamped rectangle instead fails with the
imaging library's inverted-box error before any masking. -/
theorem bbox_precedence_mask_amended
    (fill : List (List (ℚ × ℚ)) → ℕ → ℕ → ℕ → ℕ → ℕ)
    (composite : ℕ × ℕ × ℕ × ℕ → PImage → PImage)
    (img : PImage) (ann : Ann) (config : CropConfig)
    (x y w h : ℚ) (segs : List (List ℚ)) (li ti ri bi : ℤ)
    (polys : List (List (ℚ × ℚ)))
    (hbb : ann.bbox = some [x, y, w, h])
    (hseg : ann.segmentation = some segs) (hne : segs ≠ [])
    (hmask : config.mask_polygon = true)
    (hrect : expand_box x y (x + w) (y + h) config.padding img.width img.height =
      (li, ti, ri, bi))
    (hord1 : li ≤ ri) (hord2 : ti ≤ bi)
    (hpolys : localPolys li ti segs = some polys) :
    (∀ segs2, cropRect img { ann with segmentation := segs2 } config.padding =
      .ok (li, ti, ri, bi)) ∧
    crop_ann fill composite img ann config =
      (if 0 < config.background_color.2.2.2 then
        .ok (composite config.background_color
          { crop img li ti ri bi with
            alpha := fill (polys.filter (fun ps => !ps.isEmpty))
              (crop img li ti ri bi).width (crop img li ti ri bi).height })
       else
        .ok { crop img li ti ri bi with
              alpha := fill (polys.filter (fun ps => !ps.isEmpty))
                (crop img li ti ri bi).width (crop img li ti ri bi).height }) := by
  have hrect2 : ∀ segs2 : Option (List (List ℚ)),
      cropRect img { ann with segmentation := segs2 } config.padding =
        .ok (li, ti, ri, bi) := by
    intro segs2
    have hb4 : ({ ann with segmentation := segs2 } : Ann).has_bbox = true := by
      simp [Ann.has_bbox, hbb]
    have hreg : cropRegion { ann with segmentation := segs2 } =
        .ok (x, y, x + w, y + h) := by
      simp only [cropRegion]
      rw [if_pos hb4]
      simp [hbb]
    simp only [cropRect, hreg]
    rw [hrect]
  have hrectSelf : cropRect img ann config.padding = .ok (li, ti, ri, bi) := by
    have h := hrect2 ann.segmentation
    have he : ({ ann with segmentation := ann.segmentation } : Ann) = ann := rfl
    rw [he] at h
    exact h
  refine ⟨hrect2, ?_⟩
  have hp : ann.has_polygon = true := by
    rcases segs with _ | ⟨s0, srest⟩
    · exact absurd rfl hne
    · simp [Ann.has_polygon, hseg]
  have hpil : pilCrop img li ti ri bi = .ok (crop img li ti ri bi) := by
    rw [pilCrop, if_neg (by omega), if_neg (by omega)]
  simp only [crop_ann, hrectSelf, hpil]
  rw [if_pos (show (ann.has_polygon && config.mask_polygon) = true by
    rw [hp, hmask]; rfl)]
  rw [hseg]
  simp only [Option.getD_some]
  rw [hpolys]

/-- An annotation with both a bbox and a triangle polygon. -/
def annBoth : Ann :=
  { id := 5, image_id := 1, category_id := 1,
    bbox := some [0, 0, 4, 4],
    segmentation := some [[0, 0, 2, 0, 2, 2]] }

theorem bbox_precedence_mask_witness :
    cropRect img10 { annBoth with segmentation := none } 0 = .ok (0, 0, 4, 4) ∧
    crop_ann fillZero compositeId img10 annBoth cfgDefault =
      .ok { crop img10 0 0 4 4 with
            alpha := fillZero
              (List.filter (fun ps => !ps.isEmpty) [[(0, 0), (2, 0), (2, 2)]])
              (crop img10 0 0 4 4).width (crop img10 0 0 4 4).height } := by
  have h := bbox_precedence_mask_amended fillZero compositeId img10 annBoth
      cfgDefault 0 0 4 4 [[0, 0, 2, 0, 2, 2]] 0 0 4 4 [[(0, 0), (2, 0), (2, 2)]]
      rfl rfl (by decide) rfl (by with_unfolding_all rfl)
      (by decide) (by decide) (by with_unfolding_all rfl)
  exact ⟨h.1 none, h.2.trans (by with_unfolding_all rfl)⟩

/-! ## Claim C10 -/

/-- An annotation with a 3-element bbox and a degenerate (vertex-free)
polygon. -/
def annBadBoth : Ann :=
  { id := 6, image_id := 1, category_id := 1,
    bbox := some [1, 2, 3], segmentation := some [[]] }

/-- C10 counterexample: with a malformed (3-element) bbox and a non-empty
segmentation `[[]]` (one polygon with no vertices), extraction neither
computes a polygon-bbox crop rectangle nor raises the no-geometry error;
it raises the empty-polygon error instead. -/
theorem malformed_bbox_empty_polygon_counterexample :
    crop_ann fillZero compositeId img10 annBadBoth cfgDefault =
      .error .emptyPolygon ∧
    CropError.emptyPolygon ≠ CropError.noGeometry :=
  ⟨by with_unfolding_all rfl, by decide⟩

/-- C10 (amended): an annotation whose bbox is present but not 4-element
is treated exactly as if the bbox were absent - the malformed bbox never
determines the crop and never raises its own error; the crop rectangle
comes from the polygon bounding box whenever that computation succeeds on
the stored segmentation, and extraction fails with the no-geometry error
when the segmentation is absent or empty (a present segmentation with no
vertices failing instead with the empty-polygon geometry error). -/
theorem malformed_bbox_fallback_amended
    (fill : List (List (ℚ × ℚ)) → ℕ → ℕ → ℕ → ℕ → ℕ)
    (composite : ℕ × ℕ × ℕ × ℕ → PImage → PImage)
    (img : PImage) (ann : Ann) (config : CropConfig)
    (bl : List ℚ)
    (hbb : ann.bbox = some bl) (hlen : bl.length ≠ 4) :
    crop_ann fill composite img ann config =
      crop_ann fill composite img { ann with bbox := none } config ∧
    (∀ segs l t r b, ann.segmentation = some segs →
      polygon_bbox segs = .ok (l, t, r, b) →
      cropRect img ann config.padding =
        .ok (expand_box l t r b config.padding img.width img.height)) ∧
    (ann.has_polygon = false →
      crop_ann fill composite img ann config = .error .noGeometry) ∧
    (∀ segs, ann.segmentation = some segs → segs ≠ [] →
      polygon_bbox segs = .error .emptyPolygon →
      crop_ann fill composite img ann config = .error .emptyPolygon) := by
  have hb : ann.has_bbox = false := by
    simp only [Ann.has_bbox, hbb]
    cases bl with
    | nil => rfl
    | cons a l =>
      simp only [List.length_cons] at hlen
      simp
      omega
  have hbnone : ({ ann with bbox := none } : Ann).has_bbox = false := rfl
  have hpeq : ({ ann with bbox := none } : Ann).has_polygon =
      ann.has_polygon := rfl
  have hreg : cropRegion ann = cropRegion { ann with bbox := none } := by
    simp [cropRegion, hb, hbnone, Ann.has_polygon]
  refine ⟨?_, ?_, ?_, ?_⟩
  · simp only [crop_ann, cropRect, hreg, hpeq]
  · intro segs l t r b hs hpoly
    have hsne : segs ≠ [] := by
      rintro rfl
      simp [polygon_bbox] at hpoly
    have hp : ann.has_polygon = true := by
      rcases segs with _ | ⟨s0, srest⟩
      · exact absurd rfl hsne
      · simp [Ann.has_polygon, hs]
    have hregp : cropRegion ann = polygon_bbox segs := by
      simp only [cropRegion]
      rw [if_neg (by rw [hb]; exact Bool.false_ne_true)]
      rw [if_pos hp]
      rw [hs]
      rfl
    simp only [cropRect, hregp, hpoly]
  · intro hp
    have hregn : cropRegion ann = .error .noGeometry := by
      simp only [cropRegion]
      rw [if_neg (by rw [hb]; exact Bool.false_ne_true)]
      rw [if_neg (by rw [hp]; exact Bool.false_ne_true)]
    simp [crop_ann, cropRect, hregn]
  · intro segs hs hsne hpoly
    have hp : ann.has_polygon = true := by
      rcases segs with _ | ⟨s0, srest⟩
      · exact absurd rfl hsne
      · simp [Ann.has_polygon, hs]
    have hregp : cropRegion ann = polygon_bbox segs := by
      simp only [cropRegion]
      rw [if_neg (by rw [hb]; exact Bool.false_ne_true)]
      rw [if_pos hp]
      rw [hs]
      rfl
    simp [crop_ann, cropRect, hregp, hpoly]

/-- An annotation with a 3-element bbox and a usable triangle polygon. -/
def annBadBbox : Ann :=
  { id := 7, image_id := 1, category_id := 1,
    bbox := some [1, 2, 3], segmentation := some [[0, 0, 4, 0, 4, 4]] }

theorem malformed_bbox_fallback_witness :
    cropRect img10 annBadBbox 0 =
      .ok (expand_box 0 0 4 4 0 img10.width img10.height) ∧
    crop_ann fillZero compositeId img10 annBadBbox cfgDefault =
      crop_ann fillZero compositeId img10
        { annBadBbox with bbox := none } cfgDefault := by
  have h := malformed_bbox_fallback_amended fillZero compositeId img10 annBadBbox
      cfgDefault [1, 2, 3] rfl (by decide)
  exact ⟨h.2.1 [[0, 0, 4, 0, 4, 4]] 0 0 4 4 rfl (by with_unfolding_all rfl), h.1⟩

end QCPipeline
